import Mathlib

/-!
# sndiod descriptor-passing channel (`usr.bin/sndiod/fdpass.c`)

A shallow embedding of `fdpass.c`.  The C functions become Lean functions that
pass the process state explicitly; every call into the kernel or into another
module of sndiod (`sendmsg`, `recvmsg`, `close`, `file_new`, `file_del`,
`dev_bynum`, `sio_sun_getfd`, ...) is recorded as an `Event` in the state's
trace, and the value such a call returns is an input of the function.
-/

namespace Fdpass

/-! ## The embedding of `fdpass.c` -/

/-! ### Machine integers and constants -/

/-- Conversion of a C `int` to `unsigned int` (32 bits). -/
def toUInt (i : Int) : Nat := (i % 4294967296).toNat

/-- Conversion of a C `unsigned int` to `int` (32 bits, two's complement). -/
def toInt (u : Nat) : Int :=
  if u % 4294967296 < 2147483648 then ((u % 4294967296 : Nat) : Int)
  else ((u % 4294967296 : Nat) : Int) - 4294967296

/-- The values of a C `int`. -/
def isInt (i : Int) : Prop := -2147483648 ≤ i ∧ i < 2147483648

instance (i : Int) : Decidable (isInt i) := by unfold isInt; infer_instance

/-- Constants that `fdpass.c` takes from system headers (`<sys/socket.h>`,
`<errno.h>`, `<sndio.h>`); the headers are not part of the sources, so the
values are parameters of the development. -/
structure Platform where
  EMSGSIZE : Int
  MSG_TRUNC : Nat
  MSG_CTRUNC : Nat
  /-- the value of `CMSG_LEN(sizeof(int))` -/
  CMSG_LEN_int : Nat
  SOL_SOCKET : Int
  SCM_RIGHTS : Int
  SIO_PLAY : Nat
  SIO_REC : Nat
  MIO_OUT : Nat
  MIO_IN : Nat
  SIOCTL_READ : Nat
  SIOCTL_WRITE : Nat

/-- The values of the constants on OpenBSD/amd64. -/
def openbsd : Platform where
  EMSGSIZE := 40
  MSG_TRUNC := 0x10
  MSG_CTRUNC := 0x20
  CMSG_LEN_int := 20
  SOL_SOCKET := 0xffff
  SCM_RIGHTS := 1
  SIO_PLAY := 1
  SIO_REC := 2
  MIO_OUT := 4
  MIO_IN := 8
  SIOCTL_READ := 0x100
  SIOCTL_WRITE := 0x200

/-- Command: open an audio device. -/
def FDPASS_OPEN_SND : Int := 0

/-- Command: open a midi port. -/
def FDPASS_OPEN_MIDI : Int := 1

/-- Command: open an audio control device. -/
def FDPASS_OPEN_CTL : Int := 2

/-- Command: return after the above commands. -/
def FDPASS_RETURN : Int := 3

/-! ### Data model -/

/-- The record `struct fdpass_msg`: three `unsigned int` fields. -/
structure fdpass_msg where
  cmd : Nat
  num : Nat
  mode : Nat
deriving DecidableEq

/-- The value of `sizeof(struct fdpass_msg)`: three 4-byte fields. -/
def sizeof_fdpass_msg : Int := 12

/-- The two callback tables `worker_fileops` and `helper_fileops`. -/
inductive fileops where
  | worker_fileops
  | helper_fileops
deriving DecidableEq

/-- A `struct fdpass *`: the address of the allocation together with the two
fields of the structure.  Both fields are written once, in `fdpass_new`, so a
pointer and the record it points to stay in step. -/
structure fdpass where
  addr : Nat
  file : Nat
  fd : Int
deriving DecidableEq

/-- One ancillary item (`struct cmsghdr` and the `int` at `CMSG_DATA`). -/
structure cmsghdr where
  cmsg_len : Nat
  cmsg_level : Int
  cmsg_type : Int
  data : Int
deriving DecidableEq

/-- What one `recvmsg` call hands back: the return value, `errno` (meaningful
when the return value is -1), `msg.msg_flags`, the contents of the data buffer
after the call, and the ancillary items found in the control buffer. -/
structure recvmsg_result where
  n : Int
  errno : Int
  msg_flags : Nat
  data : fdpass_msg
  control : List cmsghdr
deriving DecidableEq

/-- The calls that leave `fdpass.c`. -/
inductive Event where
  | sendmsg (sock : Int) (data : fdpass_msg) (control : List cmsghdr)
  | recvmsg (sock : Int)
  | close (fd : Int)
  | file_new (ops : fileops)
  | file_del (file : Nat)
  | xmalloc (addr : Nat)
  | xfree (addr : Nat)
  | logx (level : Nat) (fmt : String)
  | dev_bynum (num : Int)
  | port_bynum (num : Int)
  | sio_sun_getfd (path : String) (mode : Int)
  | mio_rmidi_getfd (path : String) (mode : Int)
  | sioctl_sun_getfd (path : String) (mode : Int)
  | sio_sun_fdopen (fd : Int) (mode : Nat)
  | mio_rmidi_fdopen (fd : Int) (mode : Nat)
  | sioctl_sun_fdopen (fd : Int) (mode : Nat)
deriving DecidableEq

/-- The state of one process: the global `fdpass_peer`, the channel structures
that are allocated, the files registered with the event loop, the descriptors
the process holds open, and the calls made so far (oldest first). -/
structure State where
  fdpass_peer : Option fdpass
  chans : List fdpass
  files : List Nat
  fds : List Int
  trace : List Event
deriving DecidableEq

/-- The state of a process that has not created a channel yet. -/
def State.init : State := ⟨none, [], [], [], []⟩

/-! ### Channel lifecycle, send and receive -/

/-- Record a call. -/
def State.emit (s : State) (e : Event) : State :=
  { s with trace := s.trace ++ [e] }

/-- The call `logx(level, fmt, ...)`. -/
def logx (s : State) (level : Nat) (fmt : String) : State :=
  s.emit (Event.logx level fmt)

/-- The call `close(fd)`. -/
def sys_close (s : State) (fd : Int) : State :=
  { s with fds := s.fds.erase fd, trace := s.trace ++ [Event.close fd] }

/-- The call `file_del(file)`. -/
def file_del (s : State) (file : Nat) : State :=
  { s with files := s.files.erase file, trace := s.trace ++ [Event.file_del file] }

/-- The call `xfree(f)`. -/
def xfree (s : State) (f : fdpass) : State :=
  { s with chans := s.chans.erase f, trace := s.trace ++ [Event.xfree f.addr] }

/-- The function `fdpass_close`. -/
def fdpass_close (s : State) (f : fdpass) : State :=
  let s := { s with fdpass_peer := none }
  let s := file_del s f.file
  let s := sys_close s f.fd
  xfree s f

/-- The function `fdpass_new`; `addr` is the address `xmalloc` returns and
`file` is what `file_new` returns (`none` for NULL).  The result is the new
state and the returned pointer. -/
def fdpass_new (s : State) (sock : Int) (ops : fileops) (addr : Nat)
    (file : Option Nat) : State × Option fdpass :=
  let s := s.emit (Event.xmalloc addr)
  let s := s.emit (Event.file_new ops)
  match file with
  | none =>
    let s := sys_close s sock
    let s := s.emit (Event.xfree addr)
    (s, none)
  | some fl =>
    let f : fdpass := ⟨addr, fl, sock⟩
    ({ s with fdpass_peer := some f, chans := f :: s.chans, files := fl :: s.files }, some f)

/-- The ancillary item `fdpass_send` builds for descriptor `fd`. -/
def rights (P : Platform) (fd : Int) : cmsghdr :=
  ⟨P.CMSG_LEN_int, P.SOL_SOCKET, P.SCM_RIGHTS, fd⟩

/-- The function `fdpass_send`; `n` is the value `sendmsg` returns.  The result
is the new state and the return value. -/
def fdpass_send (P : Platform) (s : State) (f : fdpass) (cmd num mode fd : Int)
    (n : Int) : State × Int :=
  let data : fdpass_msg := ⟨toUInt cmd, toUInt num, toUInt mode⟩
  let control := if fd ≥ 0 then [rights P fd] else []
  let s := s.emit (Event.sendmsg f.fd data control)
  if n = -1 then
    (fdpass_close (logx s 1 "%s: sendmsg failed") f, 0)
  else if n ≠ sizeof_fdpass_msg then
    (fdpass_close (logx s 1 "%s: short write") f, 0)
  else if fd ≥ 0 then
    (sys_close s fd, 1)
  else
    (s, 1)

/-- The loop of `fdpass_recv` over the ancillary items (`CMSG_FIRSTHDR`,
`CMSG_NXTHDR`): the descriptor of the first item that is a single-descriptor
`SCM_RIGHTS` item, -1 when the items run out. -/
def scan_cmsg (P : Platform) : List cmsghdr → Int
  | [] => -1
  | c :: cs =>
    if c.cmsg_len = P.CMSG_LEN_int ∧ c.cmsg_level = P.SOL_SOCKET ∧
        c.cmsg_type = P.SCM_RIGHTS then c.data
    else scan_cmsg P cs

/-- The descriptors the kernel installs in the receiving process for the
ancillary items of a message. -/
def installed (P : Platform) (control : List cmsghdr) : List Int :=
  (control.filter (fun c => c.cmsg_level = P.SOL_SOCKET ∧ c.cmsg_type = P.SCM_RIGHTS)).map
    (fun c => c.data)

/-- The call `recvmsg(sock, &msg, MSG_WAITALL)` with outcome `r`. -/
def sys_recvmsg (P : Platform) (s : State) (sock : Int) (r : recvmsg_result) : State :=
  { s with fds := if r.n > 0 then s.fds ++ installed P r.control else s.fds,
           trace := s.trace ++ [Event.recvmsg sock] }

/-- The out-parameters of `fdpass_recv`. -/
structure recv_out where
  cmd : Int
  num : Int
  mode : Int
  fd : Int
deriving DecidableEq

/-- The function `fdpass_recv`; `r1` is the outcome of the first `recvmsg` and
`r2` the outcome of the second one, which is only called when the first fails
with `EMSGSIZE`.  The result is the new state and `none` for return value 0
(the out-parameters are not written) or `some` of the out-parameters for
return value 1. -/
def fdpass_recv (P : Platform) (s : State) (f : fdpass) (r1 r2 : recvmsg_result) :
    State × Option recv_out :=
  let s := sys_recvmsg P s f.fd r1
  let sr : State × recvmsg_result :=
    if r1.n = -1 ∧ r1.errno = P.EMSGSIZE then
      (sys_recvmsg P (logx s 1 "%s: out of fds") f.fd r2, r2)
    else (s, r1)
  let s := sr.1
  let r := sr.2
  if r.n = -1 then
    (fdpass_close (logx s 1 "%s: recvmsg failed") f, none)
  else if r.n = 0 then
    (fdpass_close (logx s 3 "%s: recvmsg eof") f, none)
  else if r.msg_flags &&& (P.MSG_TRUNC ||| P.MSG_CTRUNC) ≠ 0 then
    (fdpass_close (logx s 1 "%s: truncated") f, none)
  else
    (s, some ⟨toInt r.data.cmd, toInt r.data.num, toInt r.data.mode, scan_cmsg P r.control⟩)

/-! ### Requester and helper -/

/-- A `struct dev` as far as `fdpass.c` reads it. -/
structure dev where
  path : String
deriving DecidableEq

/-- A `struct port` as far as `fdpass.c` reads it. -/
structure port where
  path : String
deriving DecidableEq

/-- The answers of the environment during one call of a requester operation or
of a helper callback: the outcomes of the system calls and the functions of the
other modules. -/
structure Env where
  sendmsg : Int
  recv1 : recvmsg_result
  recv2 : recvmsg_result
  dev_bynum : Int → Option dev
  port_bynum : Int → Option port
  sio_sun_getfd : String → Int → Int
  mio_rmidi_getfd : String → Int → Int
  sioctl_sun_getfd : String → Int → Int
  sio_sun_fdopen : Int → Nat → Option Nat
  mio_rmidi_fdopen : Int → Nat → Option Nat
  sioctl_sun_fdopen : Int → Nat → Option Nat

/-- The function `fdpass_waitret`.  The outer `none` is the undefined call
`fdpass_recv(NULL, ...)`; otherwise the result is the new state and `none` for
return value 0 or `some fd` for return value 1 with `*retfd = fd`. -/
def fdpass_waitret (P : Platform) (E : Env) (s : State) (f : fdpass) :
    Option (State × Option Int) :=
  match s.fdpass_peer with
  | none => none
  | some peer =>
    match fdpass_recv P s peer E.recv1 E.recv2 with
    | (s, none) => some (s, none)
    | (s, some out) =>
      if out.cmd ≠ FDPASS_RETURN then
        some (fdpass_close (logx s 1 "%s: expected RETURN message") f, none)
      else some (s, some out.fd)

/-- The function `fdpass_sio_open`; the result is the new state and the
returned handle (`none` for NULL). -/
def fdpass_sio_open (P : Platform) (E : Env) (s : State) (num : Int) (mode : Nat) :
    Option (State × Option Nat) :=
  match s.fdpass_peer with
  | none => some (s, none)
  | some peer =>
    match fdpass_send P s peer FDPASS_OPEN_SND num (toInt mode) (-1) E.sendmsg with
    | (s, 0) => some (s, none)
    | (s, _) =>
      match s.fdpass_peer with
      | none => none
      | some peer =>
        match fdpass_waitret P E s peer with
        | none => none
        | some (s, none) => some (s, none)
        | some (s, some fd) =>
          if fd < 0 then some (s, none)
          else some (s.emit (Event.sio_sun_fdopen fd mode), E.sio_sun_fdopen fd mode)

/-- The function `fdpass_mio_open`. -/
def fdpass_mio_open (P : Platform) (E : Env) (s : State) (num : Int) (mode : Nat) :
    Option (State × Option Nat) :=
  match s.fdpass_peer with
  | none => some (s, none)
  | some peer =>
    match fdpass_send P s peer FDPASS_OPEN_MIDI num (toInt mode) (-1) E.sendmsg with
    | (s, 0) => some (s, none)
    | (s, _) =>
      match s.fdpass_peer with
      | none => none
      | some peer =>
        match fdpass_waitret P E s peer with
        | none => none
        | some (s, none) => some (s, none)
        | some (s, some fd) =>
          if fd < 0 then some (s, none)
          else some (s.emit (Event.mio_rmidi_fdopen fd mode), E.mio_rmidi_fdopen fd mode)

/-- The function `fdpass_sioctl_open`. -/
def fdpass_sioctl_open (P : Platform) (E : Env) (s : State) (num : Int) (mode : Nat) :
    Option (State × Option Nat) :=
  match s.fdpass_peer with
  | none => some (s, none)
  | some peer =>
    match fdpass_send P s peer FDPASS_OPEN_CTL num (toInt mode) (-1) E.sendmsg with
    | (s, 0) => some (s, none)
    | (s, _) =>
      match s.fdpass_peer with
      | none => none
      | some peer =>
        match fdpass_waitret P E s peer with
        | none => none
        | some (s, none) => some (s, none)
        | some (s, some fd) =>
          if fd < 0 then some (s, none)
          else some (s.emit (Event.sioctl_sun_fdopen fd mode), E.sioctl_sun_fdopen fd mode)

/-- The function `fdpass_in_worker`. -/
def fdpass_in_worker (s : State) (f : fdpass) : State :=
  fdpass_close (logx s 3 "%s: exit") f

/-- The function `fdpass_hup`. -/
def fdpass_hup (s : State) (f : fdpass) : State :=
  fdpass_close (logx s 3 "%s: hup") f

/-- The function `fdpass_out`. -/
def fdpass_out (s : State) (_f : fdpass) : State := s

/-- A privileged open that returned `fd`: the descriptor, when there is one,
is now held by the process. -/
def opened (s : State) (e : Event) (fd : Int) : State :=
  { s with fds := if fd ≥ 0 then s.fds ++ [fd] else s.fds, trace := s.trace ++ [e] }

/-- The function `fdpass_in_helper`. -/
def fdpass_in_helper (P : Platform) (E : Env) (s : State) (f : fdpass) : State :=
  match fdpass_recv P s f E.recv1 E.recv2 with
  | (s, none) => s
  | (s, some out) =>
    if out.cmd = FDPASS_OPEN_SND then
      let s := s.emit (Event.dev_bynum out.num)
      match E.dev_bynum out.num with
      | none => fdpass_close (logx s 1 "%s: bad audio device or mode") f
      | some d =>
        if toUInt out.mode &&& (P.SIO_PLAY ||| P.SIO_REC) = 0 then
          fdpass_close (logx s 1 "%s: bad audio device or mode") f
        else
          let fd := E.sio_sun_getfd d.path out.mode
          let s := opened s (Event.sio_sun_getfd d.path out.mode) fd
          (fdpass_send P s f FDPASS_RETURN 0 0 fd E.sendmsg).1
    else if out.cmd = FDPASS_OPEN_MIDI then
      let s := s.emit (Event.port_bynum out.num)
      match E.port_bynum out.num with
      | none => fdpass_close (logx s 1 "%s: bad midi port or mode") f
      | some p =>
        if toUInt out.mode &&& (P.MIO_IN ||| P.MIO_OUT) = 0 then
          fdpass_close (logx s 1 "%s: bad midi port or mode") f
        else
          let fd := E.mio_rmidi_getfd p.path out.mode
          let s := opened s (Event.mio_rmidi_getfd p.path out.mode) fd
          (fdpass_send P s f FDPASS_RETURN 0 0 fd E.sendmsg).1
    else if out.cmd = FDPASS_OPEN_CTL then
      let s := s.emit (Event.dev_bynum out.num)
      match E.dev_bynum out.num with
      | none => fdpass_close (logx s 1 "%s: bad control device") f
      | some d =>
        if toUInt out.mode &&& (P.SIOCTL_READ ||| P.SIOCTL_WRITE) = 0 then
          fdpass_close (logx s 1 "%s: bad control device") f
        else
          let fd := E.sioctl_sun_getfd d.path out.mode
          let s := opened s (Event.sioctl_sun_getfd d.path out.mode) fd
          (fdpass_send P s f FDPASS_RETURN 0 0 fd E.sendmsg).1
    else
      fdpass_close s f

/-! ### Observations on traces and states -/

/-- The `sendmsg` calls of a trace, in order. -/
def sent (t : List Event) : List Event :=
  t.filter (fun e => match e with | Event.sendmsg _ _ _ => true | _ => false)

/-- The `recvmsg` calls of a trace, in order. -/
def received (t : List Event) : List Event :=
  t.filter (fun e => match e with | Event.recvmsg _ => true | _ => false)

/-- The device and port lookups of a trace, in order. -/
def lookups (t : List Event) : List Event :=
  t.filter (fun e => match e with
    | Event.dev_bynum _ => true | Event.port_bynum _ => true | _ => false)

/-- The privileged opens of a trace, in order. -/
def getfds (t : List Event) : List Event :=
  t.filter (fun e => match e with
    | Event.sio_sun_getfd _ _ => true | Event.mio_rmidi_getfd _ _ => true
    | Event.sioctl_sun_getfd _ _ => true | _ => false)

/-- The number of `close(fd)` calls in a trace. -/
def closes (fd : Int) (t : List Event) : Nat := t.count (Event.close fd)

/-- The channel structures released in a trace, in order. -/
def freed (t : List Event) : List Event :=
  t.filter (fun e => match e with | Event.xfree _ => true | _ => false)

/-- The channel `f` is open in state `s`: its structure is allocated and it is
the registered peer. -/
def isOpen (s : State) (f : fdpass) : Prop := f ∈ s.chans ∧ s.fdpass_peer = some f

instance (s : State) (f : fdpass) : Decidable (isOpen s f) := by
  unfold isOpen; infer_instance

/-- The calls `fdpass_close` makes for channel `f`. -/
def teardown (f : fdpass) : List Event :=
  [Event.file_del f.file, Event.close f.fd, Event.xfree f.addr]

/-- The channel `f` was closed between the states `s` and `t`: the registry is
empty and the trace ends with the calls of `fdpass_close`. -/
def closedIn (s t : State) (f : fdpass) : Prop :=
  t.fdpass_peer = none ∧ t.files = s.files.erase f.file ∧ t.chans = s.chans.erase f ∧
  ∃ pre, t.trace = s.trace ++ pre ++ teardown f

/-! ### Sample inputs and sequences of operations -/

/-- A helper-side channel on socket 3. -/
def chan0 : fdpass := ⟨1, 7, 3⟩

/-- The state after `fdpass_new(3, &helper_fileops)` in a process that holds
socket 3. -/
def st0 : State :=
  (fdpass_new { State.init with fds := [3] } 3 fileops.helper_fileops 1 (some 7)).1

/-- An environment with one audio device and one MIDI port, both at index 0,
whose privileged opens return descriptor 5 and whose `sendmsg` accepts the
whole record; the pending message is `m`. -/
def envWith (m : recvmsg_result) : Env where
  sendmsg := 12
  recv1 := m
  recv2 := m
  dev_bynum := fun n => if n = 0 then some ⟨"/dev/audio0"⟩ else none
  port_bynum := fun n => if n = 0 then some ⟨"/dev/rmidi0"⟩ else none
  sio_sun_getfd := fun _ _ => 5
  mio_rmidi_getfd := fun _ _ => 5
  sioctl_sun_getfd := fun _ _ => 5
  sio_sun_fdopen := fun _ _ => some 100
  mio_rmidi_fdopen := fun _ _ => some 101
  sioctl_sun_fdopen := fun _ _ => some 102

/-- A full record with command `cmd`, index `num` and mode `mode`, without
ancillary data. -/
def record (cmd num mode : Nat) : recvmsg_result := ⟨12, 0, 0, ⟨cmd, num, mode⟩, []⟩

/-- The record and the ancillary data `fdpass_send` hands to `sendmsg`. -/
def wire (P : Platform) (sock : Int) (cmd num mode fd : Int) : Event :=
  Event.sendmsg sock ⟨toUInt cmd, toUInt num, toUInt mode⟩ (if fd ≥ 0 then [rights P fd] else [])

/-- What the helper has done when it answered a request: one lookup, one
privileged open, one reply `Return` with index 0 and mode 0 that carries the
descriptor `fd` exactly when `fd >= 0`, in this order and next to each other
in the trace; the channel is closed exactly when `sendmsg` did not accept the
reply. -/
def answered (P : Platform) (E : Env) (s h : State) (f : fdpass)
    (lookupEv openEv : Event) (fd : Int) : Prop :=
  lookups h.trace = lookups s.trace ++ [lookupEv] ∧
  getfds h.trace = getfds s.trace ++ [openEv] ∧
  sent h.trace = sent s.trace ++
    [Event.sendmsg f.fd ⟨3, 0, 0⟩ (if fd ≥ 0 then [rights P fd] else [])] ∧
  (∃ pre post, h.trace = s.trace ++ pre ++
      [lookupEv, openEv,
        Event.sendmsg f.fd ⟨3, 0, 0⟩ (if fd ≥ 0 then [rights P fd] else [])] ++ post) ∧
  (E.sendmsg = sizeof_fdpass_msg →
    h.fdpass_peer = s.fdpass_peer ∧ h.chans = s.chans ∧ h.files = s.files ∧
    freed h.trace = freed s.trace) ∧
  (E.sendmsg ≠ sizeof_fdpass_msg → h.fdpass_peer = none)

/-- The state of the helper after `sio_sun_getfd` returned descriptor 5. -/
def st5 : State := opened st0 (Event.sio_sun_getfd "/dev/audio0" 1) 5

/-- The outcome of the peer's `recvmsg` when it reads, in full and with the
ancillary data intact, the record that was sent with `data` and `control`; a
descriptor that was passed has the number `newfd` in the receiving process. -/
def delivered (data : fdpass_msg) (control : List cmsghdr) (newfd : Int) : recvmsg_result :=
  ⟨sizeof_fdpass_msg, 0, 0, data, control.map (fun c => { c with data := newfd })⟩

/-- The operation failed and the channel `p` was closed. -/
def failedClosed (r : Option (State × Option Nat)) (s : State) (p : fdpass) : Prop :=
  ∃ t, r = some (t, none) ∧ closedIn s t p

/-- The state after `fdpass_new(3, &worker_fileops)` in a process that holds
socket 3. -/
def st0w : State :=
  (fdpass_new { State.init with fds := [3] } 3 fileops.worker_fileops 1 (some 7)).1

/-- The common shape of the three requester operations: `cmd` is the request
command, `ev` the call that wraps the descriptor and `res` what it returns. -/
def requester (P : Platform) (E : Env) (s : State) (cmd num : Int) (mode : Nat)
    (ev : Int → Event) (res : Int → Option Nat) : Option (State × Option Nat) :=
  match s.fdpass_peer with
  | none => some (s, none)
  | some peer =>
    match fdpass_send P s peer cmd num (toInt mode) (-1) E.sendmsg with
    | (s, 0) => some (s, none)
    | (s, _) =>
      match s.fdpass_peer with
      | none => none
      | some peer =>
        match fdpass_waitret P E s peer with
        | none => none
        | some (s, none) => some (s, none)
        | some (s, some fd) =>
          if fd < 0 then some (s, none)
          else some (s.emit (ev fd), res fd)

/-- An operation on the channel layer of one process: a requester call, a
call of `fdpass_new`, or a callback the event loop makes on a channel. -/
inductive Op where
  | sio_open (E : Env) (num : Int) (mode : Nat)
  | mio_open (E : Env) (num : Int) (mode : Nat)
  | sioctl_open (E : Env) (num : Int) (mode : Nat)
  | new (sock : Int) (ops : fileops) (addr : Nat) (file : Option Nat)
  | in_worker (f : fdpass)
  | in_helper (E : Env) (f : fdpass)
  | hup (f : fdpass)

/-- The operation is a call of `fdpass_new` that succeeds. -/
def Op.installs : Op → Bool
  | Op.new _ _ _ (some _) => true
  | _ => false

/-- The state after one operation. -/
def step (P : Platform) (s : State) : Op → Option State
  | Op.sio_open E num mode => (fdpass_sio_open P E s num mode).map Prod.fst
  | Op.mio_open E num mode => (fdpass_mio_open P E s num mode).map Prod.fst
  | Op.sioctl_open E num mode => (fdpass_sioctl_open P E s num mode).map Prod.fst
  | Op.new sock ops addr file => some (fdpass_new s sock ops addr file).1
  | Op.in_worker f => some (fdpass_in_worker s f)
  | Op.in_helper E f => some (fdpass_in_helper P E s f)
  | Op.hup f => some (fdpass_hup s f)

/-- The state after a sequence of operations. -/
def run (P : Platform) (s : State) : List Op → Option State
  | [] => some s
  | op :: ops => (step P s op).bind (fun t => run P t ops)

/-- The state `t` comes from `s` by calls that neither touch the registry nor
create or close a channel. -/
def kept (s t : State) : Prop :=
  t.fdpass_peer = s.fdpass_peer ∧ t.chans = s.chans ∧ t.files = s.files ∧
  ∃ pre, t.trace = s.trace ++ pre

/-- The registry references allocated channel structures only. -/
def registryLive (s : State) : Prop := ∀ c, s.fdpass_peer = some c → c ∈ s.chans

/-- The state `t` is what a teardown of channel `f` leaves when it starts in
state `s`: the hang-up callback, the worker's read callback, `fdpass_recv`
returning 0 (end of stream, transport error, truncation), `fdpass_send`
returning 0, `fdpass_waitret` returning 0, the helper callback closing the
channel, or a plain `fdpass_close`. -/
def tornDown (P : Platform) (s : State) (f : fdpass) (t : State) : Prop :=
  t = fdpass_close s f ∨ t = fdpass_hup s f ∨ t = fdpass_in_worker s f ∨
  (∃ r1 r2, fdpass_recv P s f r1 r2 = (t, none)) ∨
  (∃ cmd num mode fd n, fdpass_send P s f cmd num mode fd n = (t, 0)) ∨
  (∃ E, fdpass_waitret P E s f = some (t, none)) ∨
  (∃ E, t = fdpass_in_helper P E s f ∧ closedIn s t f)

/-- The channel that the second of two `fdpass_new` calls installs. -/
def chanB : fdpass := ⟨2, 8, 4⟩

/-- The state after two successful `fdpass_new` calls: the channel `chan0` on
socket 3, then the channel `chanB` on socket 4, which replaces it in the
registry. -/
def stAB : State :=
  (fdpass_new st0 4 fileops.helper_fileops 2 (some 8)).1

/-! ## Properties -/

/-! ### Basic facts -/

theorem fdpass_close_trace (s : State) (f : fdpass) :
    (fdpass_close s f).trace = s.trace ++ teardown f := by
  simp [fdpass_close, xfree, sys_close, file_del, teardown]

theorem logx_trace (s : State) (l : Nat) (m : String) :
    (logx s l m).trace = s.trace ++ [Event.logx l m] := rfl

theorem emit_trace (s : State) (e : Event) : (s.emit e).trace = s.trace ++ [e] := rfl

theorem sent_append (a b : List Event) : sent (a ++ b) = sent a ++ sent b := by
  simp [sent]

theorem lookups_append (a b : List Event) : lookups (a ++ b) = lookups a ++ lookups b := by
  simp [lookups]

theorem getfds_append (a b : List Event) : getfds (a ++ b) = getfds a ++ getfds b := by
  simp [getfds]

theorem freed_append (a b : List Event) : freed (a ++ b) = freed a ++ freed b := by
  simp [freed]

theorem received_append (a b : List Event) : received (a ++ b) = received a ++ received b := by
  simp [received]

/-- When `fdpass_recv` returns 1 it has changed the trace and the descriptor
table only, and it has made no call other than `recvmsg` and `logx`. -/
theorem fdpass_recv_some (P : Platform) (s s1 : State) (f : fdpass)
    (r1 r2 : recvmsg_result) (out : recv_out)
    (h : fdpass_recv P s f r1 r2 = (s1, some out)) :
    s1.fdpass_peer = s.fdpass_peer ∧ s1.chans = s.chans ∧ s1.files = s.files ∧
    ∃ pre, s1.trace = s.trace ++ pre ∧ sent pre = [] ∧ lookups pre = [] ∧ getfds pre = [] ∧
      freed pre = [] ∧ ∀ fd, closes fd pre = 0 := by
  unfold fdpass_recv at h
  simp only at h
  split_ifs at h <;> simp only [Prod.mk.injEq, reduceCtorEq, and_false] at h
  all_goals
    obtain ⟨h1, -⟩ := h
    subst h1
    refine ⟨rfl, rfl, rfl, ?_⟩
  · exact ⟨[Event.recvmsg f.fd, Event.logx 1 "%s: out of fds", Event.recvmsg f.fd],
      by simp [sys_recvmsg, logx, State.emit], rfl, rfl, rfl, rfl, fun fd => by simp [closes]⟩
  · exact ⟨[Event.recvmsg f.fd], by simp [sys_recvmsg], rfl, rfl, rfl, rfl,
      fun fd => by simp [closes]⟩

theorem sent_teardown (f : fdpass) : sent (teardown f) = [] := rfl

theorem lookups_teardown (f : fdpass) : lookups (teardown f) = [] := rfl

theorem getfds_teardown (f : fdpass) : getfds (teardown f) = [] := rfl

/-- Closing `f` in a state that differs from `s` in trace and descriptors only
closes `f` relative to `s`. -/
theorem closedIn_close (s s1 : State) (f : fdpass) (pre : List Event)
    (hc : s1.chans = s.chans) (hf : s1.files = s.files) (ht : s1.trace = s.trace ++ pre) :
    closedIn s (fdpass_close s1 f) f := by
  refine ⟨rfl, ?_, ?_, pre, ?_⟩
  · show s1.files.erase f.file = _
    rw [hf]
  · show s1.chans.erase f = _
    rw [hc]
  · rw [fdpass_close_trace, ht]

/-! ### The helper -/

/-- C5.  When the helper has received a message whose command is none of
OpenAudio (0), OpenMidi (1), OpenControl (2), it closes the channel: the
registry is cleared, the file is deregistered, the socket is closed; it sends
no reply, looks up no device or port and performs no privileged open. -/
theorem helper_unknown_command (P : Platform) (E : Env) (s s1 : State) (f : fdpass)
    (out : recv_out)
    (hrecv : fdpass_recv P s f E.recv1 E.recv2 = (s1, some out))
    (hcmd : out.cmd ≠ FDPASS_OPEN_SND ∧ out.cmd ≠ FDPASS_OPEN_MIDI ∧
      out.cmd ≠ FDPASS_OPEN_CTL) :
    fdpass_in_helper P E s f = fdpass_close s1 f ∧
    closedIn s (fdpass_in_helper P E s f) f ∧
    sent (fdpass_in_helper P E s f).trace = sent s.trace ∧
    lookups (fdpass_in_helper P E s f).trace = lookups s.trace ∧
    getfds (fdpass_in_helper P E s f).trace = getfds s.trace := by
  obtain ⟨h0, h1, h2⟩ := hcmd
  have hE : fdpass_in_helper P E s f = fdpass_close s1 f := by
    unfold fdpass_in_helper
    rw [hrecv]
    simp [h0, h1, h2]
  obtain ⟨-, hc, hf, pre, ht, hs, hl, hg, -, -⟩ := fdpass_recv_some P s s1 f _ _ out hrecv
  rw [hE]
  refine ⟨rfl, closedIn_close s s1 f pre hc hf ht, ?_, ?_, ?_⟩
  · rw [fdpass_close_trace, ht]; simp [sent_append, hs, sent_teardown]
  · rw [fdpass_close_trace, ht]; simp [lookups_append, hl, lookups_teardown]
  · rw [fdpass_close_trace, ht]; simp [getfds_append, hg, getfds_teardown]

/-- C5 at a concrete input: the helper receives a record whose command is 3
(Return). -/
theorem helper_unknown_command_witness :
    fdpass_in_helper openbsd (envWith (record 3 0 0)) st0 chan0 =
      fdpass_close (sys_recvmsg openbsd st0 3 (record 3 0 0)) chan0 ∧
    closedIn st0 (fdpass_in_helper openbsd (envWith (record 3 0 0)) st0 chan0) chan0 ∧
    sent (fdpass_in_helper openbsd (envWith (record 3 0 0)) st0 chan0).trace = sent st0.trace ∧
    lookups (fdpass_in_helper openbsd (envWith (record 3 0 0)) st0 chan0).trace
      = lookups st0.trace ∧
    getfds (fdpass_in_helper openbsd (envWith (record 3 0 0)) st0 chan0).trace
      = getfds st0.trace :=
  helper_unknown_command openbsd (envWith (record 3 0 0)) st0 _ chan0 ⟨3, 0, 0, -1⟩
    (by decide) (by decide)

/-- Closing the channel after a lookup and a diagnostic: no reply, no
privileged open. -/
theorem close_after_lookup (P : Platform) (s s1 : State) (f : fdpass) (r1 r2 : recvmsg_result)
    (out : recv_out) (hrecv : fdpass_recv P s f r1 r2 = (s1, some out))
    (e : Event) (m : String) (hse : sent [e] = []) (hge : getfds [e] = []) :
    closedIn s (fdpass_close (logx (s1.emit e) 1 m) f) f ∧
    sent (fdpass_close (logx (s1.emit e) 1 m) f).trace = sent s.trace ∧
    getfds (fdpass_close (logx (s1.emit e) 1 m) f).trace = getfds s.trace ∧
    ¬ isOpen (fdpass_close (logx (s1.emit e) 1 m) f) f := by
  obtain ⟨-, hc, hf, pre, ht, hs, -, hg, -, -⟩ := fdpass_recv_some P s s1 f _ _ out hrecv
  have htr : (logx (s1.emit e) 1 m).trace = s.trace ++ (pre ++ [e] ++ [Event.logx 1 m]) := by
    simp [logx_trace, emit_trace, ht]
  refine ⟨closedIn_close s _ f _ hc hf htr, ?_, ?_, ?_⟩
  · rw [fdpass_close_trace, htr]
    simp only [sent_append, hs, hse, sent_teardown]
    simp [sent]
  · rw [fdpass_close_trace, htr]
    simp only [getfds_append, hg, hge, getfds_teardown]
    simp [getfds]
  · intro h
    have h2 : (none : Option fdpass) = some f := h.2
    cases h2

/-- C1, as the code has it.  When the helper has received a request whose
command is OpenAudio, OpenMidi or OpenControl and whose index does not resolve
or whose mode has no bit of the kind's valid set, it closes the channel (the
registry is cleared, the file deregistered, the socket closed), sends no reply
and performs no privileged open. -/
theorem helper_validation_failure (P : Platform) (E : Env) (s s1 : State) (f : fdpass)
    (out : recv_out)
    (hrecv : fdpass_recv P s f E.recv1 E.recv2 = (s1, some out))
    (hbad :
      (out.cmd = FDPASS_OPEN_SND ∧ (E.dev_bynum out.num = none ∨
        toUInt out.mode &&& (P.SIO_PLAY ||| P.SIO_REC) = 0)) ∨
      (out.cmd = FDPASS_OPEN_MIDI ∧ (E.port_bynum out.num = none ∨
        toUInt out.mode &&& (P.MIO_IN ||| P.MIO_OUT) = 0)) ∨
      (out.cmd = FDPASS_OPEN_CTL ∧ (E.dev_bynum out.num = none ∨
        toUInt out.mode &&& (P.SIOCTL_READ ||| P.SIOCTL_WRITE) = 0))) :
    closedIn s (fdpass_in_helper P E s f) f ∧
    sent (fdpass_in_helper P E s f).trace = sent s.trace ∧
    getfds (fdpass_in_helper P E s f).trace = getfds s.trace ∧
    ¬ isOpen (fdpass_in_helper P E s f) f := by
  rcases hbad with ⟨hc, hb⟩ | ⟨hc, hb⟩ | ⟨hc, hb⟩
  · have hE : fdpass_in_helper P E s f =
        fdpass_close (logx (s1.emit (Event.dev_bynum out.num)) 1
          "%s: bad audio device or mode") f := by
      unfold fdpass_in_helper
      rw [hrecv]
      simp only [hc, if_true]
      rcases hb with hb | hb
      · rw [hb]
      · cases hd : E.dev_bynum out.num <;> simp [hb]
    rw [hE]
    exact close_after_lookup P s s1 f _ _ out hrecv _ _ rfl rfl
  · have hE : fdpass_in_helper P E s f =
        fdpass_close (logx (s1.emit (Event.port_bynum out.num)) 1
          "%s: bad midi port or mode") f := by
      unfold fdpass_in_helper
      rw [hrecv]
      simp only [hc, FDPASS_OPEN_MIDI, FDPASS_OPEN_SND, if_true, one_ne_zero, if_false]
      rcases hb with hb | hb
      · rw [hb]
      · cases hd : E.port_bynum out.num <;> simp [hb]
    rw [hE]
    exact close_after_lookup P s s1 f _ _ out hrecv _ _ rfl rfl
  · have hE : fdpass_in_helper P E s f =
        fdpass_close (logx (s1.emit (Event.dev_bynum out.num)) 1
          "%s: bad control device") f := by
      unfold fdpass_in_helper
      rw [hrecv]
      simp only [hc, FDPASS_OPEN_MIDI, FDPASS_OPEN_SND, FDPASS_OPEN_CTL, if_true]
      rcases hb with hb | hb
      · simp [hb]
      · cases hd : E.dev_bynum out.num <;> simp [hb]
    rw [hE]
    exact close_after_lookup P s s1 f _ _ out hrecv _ _ rfl rfl

/-- C1 at a concrete input: an OpenAudio request for device 5, which does not
exist. -/
theorem helper_validation_failure_witness :
    closedIn st0 (fdpass_in_helper openbsd (envWith (record 0 5 1)) st0 chan0) chan0 ∧
    sent (fdpass_in_helper openbsd (envWith (record 0 5 1)) st0 chan0).trace = sent st0.trace ∧
    getfds (fdpass_in_helper openbsd (envWith (record 0 5 1)) st0 chan0).trace
      = getfds st0.trace ∧
    ¬ isOpen (fdpass_in_helper openbsd (envWith (record 0 5 1)) st0 chan0) chan0 :=
  helper_validation_failure openbsd (envWith (record 0 5 1)) st0
    (sys_recvmsg openbsd st0 3 (record 0 5 1)) chan0 ⟨0, 5, 1, -1⟩
    (by decide) (Or.inl ⟨rfl, Or.inl (by decide)⟩)

/-- C1 as stated fails: the helper receives the OpenAudio request for the
existing device 0 with mode 0, which has no bit of `SIO_PLAY | SIO_REC`; it
sends no reply at all and the channel is not open afterwards. -/
theorem helper_validation_failure_counterexample :
    (fdpass_recv openbsd st0 chan0 (record 0 0 0) (record 0 0 0)).2 = some ⟨0, 0, 0, -1⟩ ∧
    toUInt 0 &&& (openbsd.SIO_PLAY ||| openbsd.SIO_REC) = 0 ∧
    isOpen st0 chan0 ∧
    sent (fdpass_in_helper openbsd (envWith (record 0 0 0)) st0 chan0).trace = [] ∧
    ¬ isOpen (fdpass_in_helper openbsd (envWith (record 0 0 0)) st0 chan0) chan0 := by
  decide

theorem toUInt_RETURN : toUInt FDPASS_RETURN = 3 := by decide

theorem toUInt_zero : toUInt 0 = 0 := by decide

/-- The function `fdpass_send` calls `sendmsg` once, with the record built from
its arguments and with the descriptor attached when there is one; it looks up
nothing and opens nothing. -/
theorem fdpass_send_calls (P : Platform) (s : State) (f : fdpass) (cmd num mode fd n : Int) :
    sent (fdpass_send P s f cmd num mode fd n).1.trace
      = sent s.trace ++ [wire P f.fd cmd num mode fd] ∧
    lookups (fdpass_send P s f cmd num mode fd n).1.trace = lookups s.trace ∧
    getfds (fdpass_send P s f cmd num mode fd n).1.trace = getfds s.trace := by
  unfold fdpass_send
  simp only [sent, lookups, getfds, wire]
  split_ifs <;>
    simp [fdpass_close_trace, logx_trace, emit_trace, sys_close, teardown]

/-- The trace `fdpass_send` leaves: the `sendmsg` call, then what follows
it. -/
theorem fdpass_send_trace (P : Platform) (s : State) (f : fdpass) (cmd num mode fd n : Int) :
    ∃ post, (fdpass_send P s f cmd num mode fd n).1.trace
      = s.trace ++ [wire P f.fd cmd num mode fd] ++ post := by
  unfold fdpass_send
  simp only [wire]
  split_ifs
  all_goals
    simp only [fdpass_close_trace, logx_trace, emit_trace, sys_close, List.append_assoc]
    exact ⟨_, rfl⟩

/-- When `sendmsg` accepts the whole record, `fdpass_send` returns 1, leaves
the channel as it is and releases no channel structure. -/
theorem fdpass_send_ok (P : Platform) (s : State) (f : fdpass) (cmd num mode fd n : Int)
    (hn : n = sizeof_fdpass_msg) :
    (fdpass_send P s f cmd num mode fd n).2 = 1 ∧
    (fdpass_send P s f cmd num mode fd n).1.fdpass_peer = s.fdpass_peer ∧
    (fdpass_send P s f cmd num mode fd n).1.chans = s.chans ∧
    (fdpass_send P s f cmd num mode fd n).1.files = s.files ∧
    freed (fdpass_send P s f cmd num mode fd n).1.trace = freed s.trace := by
  subst hn
  unfold fdpass_send
  simp only [sizeof_fdpass_msg, freed]
  split_ifs <;> simp_all [emit_trace, sys_close, State.emit]

/-- When `sendmsg` fails or accepts less than the record, `fdpass_send`
returns 0 and closes the channel. -/
theorem fdpass_send_fail (P : Platform) (s : State) (f : fdpass) (cmd num mode fd n : Int)
    (hn : n ≠ sizeof_fdpass_msg) :
    (fdpass_send P s f cmd num mode fd n).2 = 0 ∧
    closedIn s (fdpass_send P s f cmd num mode fd n).1 f := by
  unfold fdpass_send
  simp only
  split_ifs <;>
    exact ⟨rfl, closedIn_close s _ f _ rfl rfl (by rw [logx_trace, emit_trace, List.append_assoc])⟩

theorem reply_after_open (P : Platform) (E : Env) (s s1 : State) (f : fdpass)
    (out : recv_out) (hrecv : fdpass_recv P s f E.recv1 E.recv2 = (s1, some out))
    (lookupEv openEv : Event) (fd : Int)
    (hl : lookups [lookupEv] = [lookupEv] ∧ getfds [lookupEv] = [] ∧ sent [lookupEv] = [] ∧
      freed [lookupEv] = [])
    (ho : lookups [openEv] = [] ∧ getfds [openEv] = [openEv] ∧ sent [openEv] = [] ∧
      freed [openEv] = []) :
    answered P E s
      (fdpass_send P (opened (s1.emit lookupEv) openEv fd) f FDPASS_RETURN 0 0 fd E.sendmsg).1
      f lookupEv openEv fd := by
  obtain ⟨hp, hc, hf, pre, ht, hs, hlk, hg, hfr, -⟩ := fdpass_recv_some P s s1 f _ _ out hrecv
  obtain ⟨hl1, hl2, hl3, hl4⟩ := hl
  obtain ⟨ho1, ho2, ho3, ho4⟩ := ho
  have htr : (opened (s1.emit lookupEv) openEv fd).trace
      = s.trace ++ pre ++ [lookupEv] ++ [openEv] := by
    simp [opened, emit_trace, ht]
  obtain ⟨c1, c2, c3⟩ :=
    fdpass_send_calls P (opened (s1.emit lookupEv) openEv fd) f FDPASS_RETURN 0 0 fd E.sendmsg
  refine ⟨?_, ?_, ?_, ?_, ?_, ?_⟩
  · rw [c2, htr]; simp only [lookups_append, hlk, hl1, ho1, List.append_nil]
  · rw [c3, htr]; simp only [getfds_append, hg, hl2, ho2, List.append_nil]
  · rw [c1, htr]
    simp only [sent_append, hs, hl3, ho3, List.append_nil, wire, toUInt_RETURN, toUInt_zero]
  · obtain ⟨post, hpost⟩ :=
      fdpass_send_trace P (opened (s1.emit lookupEv) openEv fd) f FDPASS_RETURN 0 0 fd E.sendmsg
    refine ⟨pre, post, ?_⟩
    rw [hpost, htr]
    simp only [wire, toUInt_RETURN, toUInt_zero, List.append_assoc, List.singleton_append,
      List.cons_append, List.nil_append]
  · intro hn
    obtain ⟨-, d1, d2, d3, d4⟩ :=
      fdpass_send_ok P (opened (s1.emit lookupEv) openEv fd) f FDPASS_RETURN 0 0 fd E.sendmsg hn
    refine ⟨d1.trans hp, d2.trans hc, d3.trans hf, ?_⟩
    rw [d4, htr]; simp only [freed_append, hfr, hl4, ho4, List.append_nil]
  · intro hn
    exact (fdpass_send_fail P _ f FDPASS_RETURN 0 0 fd E.sendmsg hn).2.1

/-- C4.  When the helper has received an OpenAudio, OpenMidi or OpenControl
request whose index resolves and whose mode has a bit of the kind's valid set,
it calls that kind's privileged open once, with the resolved path and the
requested mode, then sends one reply with command 3 (Return), index 0 and
mode 0, attaching the obtained descriptor exactly when the open returned one
(`fd >= 0`).  The helper does not close the channel on this path, whether the
open succeeded or failed: the channel is closed only when `sendmsg` does not
accept the reply. -/
theorem helper_success (P : Platform) (E : Env) (s s1 : State) (f : fdpass) (out : recv_out)
    (hrecv : fdpass_recv P s f E.recv1 E.recv2 = (s1, some out)) :
    (∀ d, out.cmd = FDPASS_OPEN_SND → E.dev_bynum out.num = some d →
      toUInt out.mode &&& (P.SIO_PLAY ||| P.SIO_REC) ≠ 0 →
      answered P E s (fdpass_in_helper P E s f) f (Event.dev_bynum out.num)
        (Event.sio_sun_getfd d.path out.mode) (E.sio_sun_getfd d.path out.mode)) ∧
    (∀ p, out.cmd = FDPASS_OPEN_MIDI → E.port_bynum out.num = some p →
      toUInt out.mode &&& (P.MIO_IN ||| P.MIO_OUT) ≠ 0 →
      answered P E s (fdpass_in_helper P E s f) f (Event.port_bynum out.num)
        (Event.mio_rmidi_getfd p.path out.mode) (E.mio_rmidi_getfd p.path out.mode)) ∧
    (∀ d, out.cmd = FDPASS_OPEN_CTL → E.dev_bynum out.num = some d →
      toUInt out.mode &&& (P.SIOCTL_READ ||| P.SIOCTL_WRITE) ≠ 0 →
      answered P E s (fdpass_in_helper P E s f) f (Event.dev_bynum out.num)
        (Event.sioctl_sun_getfd d.path out.mode) (E.sioctl_sun_getfd d.path out.mode)) := by
  refine ⟨?_, ?_, ?_⟩
  · intro d hc hd hm
    have hE : fdpass_in_helper P E s f =
        (fdpass_send P (opened (s1.emit (Event.dev_bynum out.num))
          (Event.sio_sun_getfd d.path out.mode) (E.sio_sun_getfd d.path out.mode))
          f FDPASS_RETURN 0 0 (E.sio_sun_getfd d.path out.mode) E.sendmsg).1 := by
      unfold fdpass_in_helper
      rw [hrecv]
      simp [hc, hd, hm]
    rw [hE]
    exact reply_after_open P E s s1 f out hrecv _ _ _ ⟨rfl, rfl, rfl, rfl⟩ ⟨rfl, rfl, rfl, rfl⟩
  · intro p hc hp hm
    have hE : fdpass_in_helper P E s f =
        (fdpass_send P (opened (s1.emit (Event.port_bynum out.num))
          (Event.mio_rmidi_getfd p.path out.mode) (E.mio_rmidi_getfd p.path out.mode))
          f FDPASS_RETURN 0 0 (E.mio_rmidi_getfd p.path out.mode) E.sendmsg).1 := by
      unfold fdpass_in_helper
      rw [hrecv]
      simp [hc, hp, hm, FDPASS_OPEN_MIDI, FDPASS_OPEN_SND]
    rw [hE]
    exact reply_after_open P E s s1 f out hrecv _ _ _ ⟨rfl, rfl, rfl, rfl⟩ ⟨rfl, rfl, rfl, rfl⟩
  · intro d hc hd hm
    have hE : fdpass_in_helper P E s f =
        (fdpass_send P (opened (s1.emit (Event.dev_bynum out.num))
          (Event.sioctl_sun_getfd d.path out.mode) (E.sioctl_sun_getfd d.path out.mode))
          f FDPASS_RETURN 0 0 (E.sioctl_sun_getfd d.path out.mode) E.sendmsg).1 := by
      unfold fdpass_in_helper
      rw [hrecv]
      simp [hc, hd, hm, FDPASS_OPEN_MIDI, FDPASS_OPEN_SND, FDPASS_OPEN_CTL]
    rw [hE]
    exact reply_after_open P E s s1 f out hrecv _ _ _ ⟨rfl, rfl, rfl, rfl⟩ ⟨rfl, rfl, rfl, rfl⟩

/-- C4 at a concrete input: an OpenAudio request for the existing device 0
with mode `SIO_PLAY`; the privileged open returns descriptor 5. -/
theorem helper_success_witness :
    answered openbsd (envWith (record 0 0 1)) st0
      (fdpass_in_helper openbsd (envWith (record 0 0 1)) st0 chan0) chan0
      (Event.dev_bynum 0) (Event.sio_sun_getfd "/dev/audio0" 1) 5 :=
  (helper_success openbsd (envWith (record 0 0 1)) st0
    (sys_recvmsg openbsd st0 3 (record 0 0 1)) chan0 ⟨0, 0, 1, -1⟩ (by decide)).1
    ⟨"/dev/audio0"⟩ rfl (by decide) (by decide)

/-! ### Sending and receiving -/

/-- On the success path `fdpass_send` closes the descriptor it was given
once. -/
theorem fdpass_send_ok_closes_once (P : Platform) (s : State) (f : fdpass)
    (cmd num mode fd n : Int) (hn : n = sizeof_fdpass_msg) (hfd : 0 ≤ fd) :
    closes fd (fdpass_send P s f cmd num mode fd n).1.trace = closes fd s.trace + 1 := by
  subst hn
  simp [fdpass_send, sizeof_fdpass_msg, hfd, closes, sys_close, emit_trace, List.count_append]

/-- On the failure paths `fdpass_send` closes the socket of the channel and
nothing else: a descriptor it was given, other than that socket, is not
closed. -/
theorem fdpass_send_fail_closes (P : Platform) (s : State) (f : fdpass)
    (cmd num mode fd n : Int) (hn : n ≠ sizeof_fdpass_msg) (hfd : fd ≠ f.fd) :
    closes fd (fdpass_send P s f cmd num mode fd n).1.trace = closes fd s.trace := by
  unfold fdpass_send
  simp only [closes]
  split_ifs <;>
    simp [fdpass_close_trace, logx_trace, emit_trace, teardown, List.count_append,
      List.count_cons, hfd]

/-- C2 at the failing input.  The helper holds descriptor 5 from the
privileged open and `sendmsg` fails: `fdpass_send` returns 0 without a
`close(5)`, and descriptor 5 is still held.  The same holds for the whole
callback `fdpass_in_helper` when the reply cannot be sent. -/
theorem fdpass_send_failure_leaks :
    (fdpass_send openbsd st5 chan0 FDPASS_RETURN 0 0 5 (-1)).2 = 0 ∧
    closes 5 (fdpass_send openbsd st5 chan0 FDPASS_RETURN 0 0 5 (-1)).1.trace = 0 ∧
    5 ∈ (fdpass_send openbsd st5 chan0 FDPASS_RETURN 0 0 5 (-1)).1.fds ∧
    closes 5 (fdpass_in_helper openbsd { envWith (record 0 0 1) with sendmsg := -1 }
      st0 chan0).trace = 0 ∧
    5 ∈ (fdpass_in_helper openbsd { envWith (record 0 0 1) with sendmsg := -1 }
      st0 chan0).fds := by
  decide

/-- C3 at the failing input.  The read returns 4 bytes, so only the command
field of the buffer was filled and the other two fields hold whatever the
buffer held before (here `0xdeadbeef`); no truncation flag is set.
`fdpass_recv` returns 1, hands the buffer to its caller as command, index and
mode, and leaves the channel open. -/
theorem fdpass_recv_short_read_accepted :
    (fdpass_recv openbsd st0 chan0 ⟨4, 0, 0, ⟨0, 0xdeadbeef, 0xdeadbeef⟩, []⟩
      (record 0 0 0)).2 = some ⟨0, -559038737, -559038737, -1⟩ ∧
    isOpen (fdpass_recv openbsd st0 chan0 ⟨4, 0, 0, ⟨0, 0xdeadbeef, 0xdeadbeef⟩, []⟩
      (record 0 0 0)).1 chan0 ∧
    closes 3 (fdpass_recv openbsd st0 chan0 ⟨4, 0, 0, ⟨0, 0xdeadbeef, 0xdeadbeef⟩, []⟩
      (record 0 0 0)).1.trace = 0 := by
  decide

/-- A failed read, end of stream and a read that reports `MSG_TRUNC` or
`MSG_CTRUNC` make `fdpass_recv` return 0 and close the channel. -/
theorem fdpass_recv_rejects (P : Platform) (s : State) (f : fdpass) (r1 r2 : recvmsg_result)
    (hr1 : ¬ (r1.n = -1 ∧ r1.errno = P.EMSGSIZE))
    (h : r1.n = -1 ∨ r1.n = 0 ∨ r1.msg_flags &&& (P.MSG_TRUNC ||| P.MSG_CTRUNC) ≠ 0) :
    (fdpass_recv P s f r1 r2).2 = none ∧ closedIn s (fdpass_recv P s f r1 r2).1 f := by
  unfold fdpass_recv
  simp only [hr1, if_false]
  split_ifs with a b c
  · exact ⟨rfl, closedIn_close s _ f _ rfl rfl
      (by rw [logx_trace]; simp only [sys_recvmsg, List.append_assoc]; rfl)⟩
  · exact ⟨rfl, closedIn_close s _ f _ rfl rfl
      (by rw [logx_trace]; simp only [sys_recvmsg, List.append_assoc]; rfl)⟩
  · exact ⟨rfl, closedIn_close s _ f _ rfl rfl
      (by rw [logx_trace]; simp only [sys_recvmsg, List.append_assoc]; rfl)⟩
  · rcases h with h | h | h
    · exact absurd h a
    · exact absurd h b
    · exact absurd h c

/-- C7.  When the first `recvmsg` fails with `EMSGSIZE` and the read that is
issued again returns the full record, without truncation flag and, the kernel
having discarded the ancillary data, without ancillary item, `fdpass_recv`
returns 1 with the command, index and mode of that record and with -1 for the
descriptor.  It has called `recvmsg` twice and logged once; registry, channel
structures, registered files and descriptors are as before, so the channel is
still open. -/
theorem degraded_delivery (P : Platform) (s : State) (f : fdpass) (r1 r2 : recvmsg_result)
    (h1 : r1.n = -1) (he : r1.errno = P.EMSGSIZE)
    (h2 : r2.n = sizeof_fdpass_msg)
    (hfl : r2.msg_flags &&& (P.MSG_TRUNC ||| P.MSG_CTRUNC) = 0)
    (hdisc : r2.control = []) :
    fdpass_recv P s f r1 r2 =
      ({ s with trace := s.trace ++
          [Event.recvmsg f.fd, Event.logx 1 "%s: out of fds", Event.recvmsg f.fd] },
       some ⟨toInt r2.data.cmd, toInt r2.data.num, toInt r2.data.mode, -1⟩) ∧
    (isOpen s f → isOpen (fdpass_recv P s f r1 r2).1 f) := by
  have hE : fdpass_recv P s f r1 r2 =
      ({ s with trace := s.trace ++
          [Event.recvmsg f.fd, Event.logx 1 "%s: out of fds", Event.recvmsg f.fd] },
       some ⟨toInt r2.data.cmd, toInt r2.data.num, toInt r2.data.mode, -1⟩) := by
    unfold fdpass_recv
    simp [h1, he, h2, hfl, hdisc, sizeof_fdpass_msg, sys_recvmsg, logx, State.emit, installed,
      scan_cmsg]
  rw [hE]
  exact ⟨rfl, fun h => h⟩

/-- C7 at a concrete input: the first read fails with `EMSGSIZE` (40), the
second returns the record of a reply. -/
theorem degraded_delivery_witness :
    fdpass_recv openbsd st0 chan0 ⟨-1, 40, 0, ⟨0, 0, 0⟩, []⟩ (record 3 0 0) =
      ({ st0 with trace := st0.trace ++
          [Event.recvmsg chan0.fd, Event.logx 1 "%s: out of fds", Event.recvmsg chan0.fd] },
       some ⟨toInt (record 3 0 0).data.cmd, toInt (record 3 0 0).data.num,
         toInt (record 3 0 0).data.mode, -1⟩) ∧
    (isOpen st0 chan0 →
      isOpen (fdpass_recv openbsd st0 chan0 ⟨-1, 40, 0, ⟨0, 0, 0⟩, []⟩ (record 3 0 0)).1 chan0) :=
  degraded_delivery openbsd st0 chan0 ⟨-1, 40, 0, ⟨0, 0, 0⟩, []⟩ (record 3 0 0)
    rfl rfl rfl (by decide) rfl

/-- When `fdpass_send` returns 1, `sendmsg` accepted the whole record. -/
theorem fdpass_send_ret_one (P : Platform) (s : State) (f : fdpass) (cmd num mode fd n : Int)
    (h : (fdpass_send P s f cmd num mode fd n).2 = 1) : n = sizeof_fdpass_msg := by
  by_contra hn
  rw [(fdpass_send_fail P s f cmd num mode fd n hn).1] at h
  exact absurd h (by decide)

/-- An `int` stored in an `unsigned int` and read back as `int` is
unchanged. -/
theorem toInt_toUInt (i : Int) (h : isInt i) : toInt (toUInt i) = i := by
  unfold isInt at h
  unfold toInt toUInt
  have e : ((i % 4294967296).toNat : Int) = i % 4294967296 :=
    Int.toNat_of_nonneg (Int.emod_nonneg _ (by norm_num))
  split_ifs with c <;> omega

/-- C8.  For all `int` values of command, index and mode and every descriptor
argument: `fdpass_send`, when it succeeds, has handed to `sendmsg` one record
and, exactly when `fd >= 0`, one ancillary item; when the peer's `recvmsg`
reads that record in full with the ancillary data intact, `fdpass_recv`
returns 1 with the command, index and mode that were sent, with the passed
descriptor when `fd >= 0` and with -1 otherwise, and does not close the
receiving channel. -/
theorem wire_round_trip (P : Platform) (s sr : State) (f g : fdpass)
    (cmd num mode fd n newfd : Int) (r2 : recvmsg_result)
    (hc : isInt cmd) (hnum : isInt num) (hm : isInt mode)
    (hsend : (fdpass_send P s f cmd num mode fd n).2 = 1) (hnew : 0 ≤ newfd) :
    sent (fdpass_send P s f cmd num mode fd n).1.trace = sent s.trace ++
      [Event.sendmsg f.fd ⟨toUInt cmd, toUInt num, toUInt mode⟩
        (if fd ≥ 0 then [rights P fd] else [])] ∧
    (fdpass_recv P sr g (delivered ⟨toUInt cmd, toUInt num, toUInt mode⟩
        (if fd ≥ 0 then [rights P fd] else []) newfd) r2).2
      = some ⟨cmd, num, mode, if fd ≥ 0 then newfd else -1⟩ ∧
    ((fdpass_recv P sr g (delivered ⟨toUInt cmd, toUInt num, toUInt mode⟩
        (if fd ≥ 0 then [rights P fd] else []) newfd) r2).2.map (fun o => decide (0 ≤ o.fd))
      = some (decide (0 ≤ fd))) ∧
    (fdpass_recv P sr g (delivered ⟨toUInt cmd, toUInt num, toUInt mode⟩
        (if fd ≥ 0 then [rights P fd] else []) newfd) r2).1.fdpass_peer = sr.fdpass_peer ∧
    (fdpass_send P s f cmd num mode fd n).1.fdpass_peer = s.fdpass_peer := by
  have hE : (fdpass_recv P sr g (delivered ⟨toUInt cmd, toUInt num, toUInt mode⟩
        (if fd ≥ 0 then [rights P fd] else []) newfd) r2)
      = (sys_recvmsg P sr g.fd (delivered ⟨toUInt cmd, toUInt num, toUInt mode⟩
          (if fd ≥ 0 then [rights P fd] else []) newfd),
         some ⟨cmd, num, mode, if fd ≥ 0 then newfd else -1⟩) := by
    unfold fdpass_recv
    simp only [delivered, sizeof_fdpass_msg]
    by_cases hfd : fd ≥ 0 <;>
      simp [hfd, scan_cmsg, rights, toInt_toUInt _ hc, toInt_toUInt _ hnum, toInt_toUInt _ hm]
  refine ⟨(fdpass_send_calls P s f cmd num mode fd n).1, ?_, ?_, ?_, ?_⟩
  · rw [hE]
  · rw [hE]
    by_cases hfd : fd ≥ 0
    · simp [hfd, hnew]
    · simp [hfd]
  · rw [hE]; rfl
  · exact (fdpass_send_ok P s f cmd num mode fd n (fdpass_send_ret_one P s f _ _ _ _ n hsend)).2.1

/-- C8 at a concrete input: the reply `Return` with descriptor 5, which
arrives as descriptor 9, sent with all of the record accepted. -/
theorem wire_round_trip_witness :
    sent (fdpass_send openbsd st5 chan0 3 0 0 5 12).1.trace = sent st5.trace ++
      [Event.sendmsg chan0.fd ⟨toUInt 3, toUInt 0, toUInt 0⟩
        (if (5 : Int) ≥ 0 then [rights openbsd 5] else [])] ∧
    (fdpass_recv openbsd st0 chan0 (delivered ⟨toUInt 3, toUInt 0, toUInt 0⟩
        (if (5 : Int) ≥ 0 then [rights openbsd 5] else []) 9) (record 0 0 0)).2
      = some ⟨3, 0, 0, if (5 : Int) ≥ 0 then 9 else -1⟩ ∧
    ((fdpass_recv openbsd st0 chan0 (delivered ⟨toUInt 3, toUInt 0, toUInt 0⟩
        (if (5 : Int) ≥ 0 then [rights openbsd 5] else []) 9) (record 0 0 0)).2.map
          (fun o => decide (0 ≤ o.fd))
      = some (decide (0 ≤ (5 : Int)))) ∧
    (fdpass_recv openbsd st0 chan0 (delivered ⟨toUInt 3, toUInt 0, toUInt 0⟩
        (if (5 : Int) ≥ 0 then [rights openbsd 5] else []) 9) (record 0 0 0)).1.fdpass_peer
      = st0.fdpass_peer ∧
    (fdpass_send openbsd st5 chan0 3 0 0 5 12).1.fdpass_peer = st5.fdpass_peer :=
  wire_round_trip openbsd st5 st0 chan0 chan0 3 0 0 5 12 9 (record 0 0 0)
    (by decide) (by decide) (by decide) (by decide) (by decide)

/-! ### The requester -/

/-- What `fdpass_recv` returns does not depend on the state or the channel. -/
theorem fdpass_recv_snd (P : Platform) (s t : State) (f g : fdpass) (r1 r2 : recvmsg_result) :
    (fdpass_recv P s f r1 r2).2 = (fdpass_recv P t g r1 r2).2 := by
  unfold fdpass_recv
  simp only
  split_ifs <;> rfl

/-- A request, which carries no descriptor, that `sendmsg` accepts in full. -/
theorem fdpass_send_request (P : Platform) (s : State) (f : fdpass) (cmd num mode n : Int)
    (hn : n = sizeof_fdpass_msg) :
    fdpass_send P s f cmd num mode (-1) n =
      (s.emit (Event.sendmsg f.fd ⟨toUInt cmd, toUInt num, toUInt mode⟩ []), 1) := by
  subst hn
  simp [fdpass_send, sizeof_fdpass_msg]

/-- A reply with a command other than `Return` makes `fdpass_waitret` close
the channel it was given and return 0. -/
theorem fdpass_waitret_wrong (P : Platform) (E : Env) (s0 s : State) (p : fdpass) (e : Event)
    (out : recv_out) (hs : s = s0.emit e) (hpeer : s0.fdpass_peer = some p)
    (hrecv : (fdpass_recv P s0 p E.recv1 E.recv2).2 = some out)
    (hcmd : out.cmd ≠ FDPASS_RETURN) :
    ∃ t, fdpass_waitret P E s p = some (t, none) ∧ closedIn s0 t p := by
  have hp : s.fdpass_peer = some p := by rw [hs]; exact hpeer
  have h2 : (fdpass_recv P s p E.recv1 E.recv2).2 = some out := by
    rw [fdpass_recv_snd P s s0 p p]; exact hrecv
  obtain ⟨s1, hs1⟩ : ∃ s1, fdpass_recv P s p E.recv1 E.recv2 = (s1, some out) :=
    ⟨(fdpass_recv P s p E.recv1 E.recv2).1, Prod.ext rfl h2⟩
  obtain ⟨-, hc, hf, pre, ht, -⟩ := fdpass_recv_some P s s1 p _ _ out hs1
  refine ⟨fdpass_close (logx s1 1 "%s: expected RETURN message") p, ?_, ?_⟩
  · unfold fdpass_waitret
    rw [hp]
    simp only [hs1, hcmd, ne_eq, not_false_eq_true, if_true]
  · refine closedIn_close s0 _ p ([e] ++ pre ++ [Event.logx 1 "%s: expected RETURN message"])
      ?_ ?_ ?_
    · show s1.chans = _
      rw [hc, hs]; rfl
    · show s1.files = _
      rw [hf, hs]; rfl
    · rw [logx_trace, ht, hs, emit_trace]
      simp only [List.append_assoc]

/-- C6.  With a channel registered and the request accepted by `sendmsg`, when
the reply that is received has a command other than 3 (Return), each of
`fdpass_sio_open`, `fdpass_mio_open` and `fdpass_sioctl_open` returns NULL and
has closed the channel, whatever descriptor the reply carried. -/
theorem requester_wrong_reply (P : Platform) (E : Env) (s : State) (p : fdpass)
    (num : Int) (mode : Nat) (out : recv_out)
    (hpeer : s.fdpass_peer = some p)
    (hsend : E.sendmsg = sizeof_fdpass_msg)
    (hrecv : (fdpass_recv P s p E.recv1 E.recv2).2 = some out)
    (hcmd : out.cmd ≠ FDPASS_RETURN) :
    failedClosed (fdpass_sio_open P E s num mode) s p ∧
    failedClosed (fdpass_mio_open P E s num mode) s p ∧
    failedClosed (fdpass_sioctl_open P E s num mode) s p := by
  refine ⟨?_, ?_, ?_⟩
  · obtain ⟨t, ht, hcl⟩ := fdpass_waitret_wrong P E s _ p
      (Event.sendmsg p.fd ⟨toUInt FDPASS_OPEN_SND, toUInt num, toUInt (toInt mode)⟩ [])
      out rfl hpeer hrecv hcmd
    refine ⟨t, ?_, hcl⟩
    unfold fdpass_sio_open
    rw [hpeer]
    simp only [fdpass_send_request P s p _ _ _ _ hsend]
    rw [show (s.emit _).fdpass_peer = some p from hpeer]
    simp only [ht]
  · obtain ⟨t, ht, hcl⟩ := fdpass_waitret_wrong P E s _ p
      (Event.sendmsg p.fd ⟨toUInt FDPASS_OPEN_MIDI, toUInt num, toUInt (toInt mode)⟩ [])
      out rfl hpeer hrecv hcmd
    refine ⟨t, ?_, hcl⟩
    unfold fdpass_mio_open
    rw [hpeer]
    simp only [fdpass_send_request P s p _ _ _ _ hsend]
    rw [show (s.emit _).fdpass_peer = some p from hpeer]
    simp only [ht]
  · obtain ⟨t, ht, hcl⟩ := fdpass_waitret_wrong P E s _ p
      (Event.sendmsg p.fd ⟨toUInt FDPASS_OPEN_CTL, toUInt num, toUInt (toInt mode)⟩ [])
      out rfl hpeer hrecv hcmd
    refine ⟨t, ?_, hcl⟩
    unfold fdpass_sioctl_open
    rw [hpeer]
    simp only [fdpass_send_request P s p _ _ _ _ hsend]
    rw [show (s.emit _).fdpass_peer = some p from hpeer]
    simp only [ht]

/-- C6 at a concrete input: the reply has command 0 and carries a descriptor. -/
theorem requester_wrong_reply_witness :
    failedClosed (fdpass_sio_open openbsd
      (envWith ⟨12, 0, 0, ⟨0, 0, 0⟩, [rights openbsd 9]⟩) st0w 0 1) st0w chan0 ∧
    failedClosed (fdpass_mio_open openbsd
      (envWith ⟨12, 0, 0, ⟨0, 0, 0⟩, [rights openbsd 9]⟩) st0w 0 1) st0w chan0 ∧
    failedClosed (fdpass_sioctl_open openbsd
      (envWith ⟨12, 0, 0, ⟨0, 0, 0⟩, [rights openbsd 9]⟩) st0w 0 1) st0w chan0 :=
  requester_wrong_reply openbsd (envWith ⟨12, 0, 0, ⟨0, 0, 0⟩, [rights openbsd 9]⟩) st0w chan0
    0 1 ⟨0, 0, 0, 9⟩ rfl rfl (by decide) (by decide)

/-! ### The peer registry over sequences of operations -/

theorem fdpass_sio_open_eq (P : Platform) (E : Env) (s : State) (num : Int) (mode : Nat) :
    fdpass_sio_open P E s num mode = requester P E s FDPASS_OPEN_SND num mode
      (fun fd => Event.sio_sun_fdopen fd mode) (fun fd => E.sio_sun_fdopen fd mode) := rfl

theorem fdpass_mio_open_eq (P : Platform) (E : Env) (s : State) (num : Int) (mode : Nat) :
    fdpass_mio_open P E s num mode = requester P E s FDPASS_OPEN_MIDI num mode
      (fun fd => Event.mio_rmidi_fdopen fd mode) (fun fd => E.mio_rmidi_fdopen fd mode) := rfl

theorem fdpass_sioctl_open_eq (P : Platform) (E : Env) (s : State) (num : Int) (mode : Nat) :
    fdpass_sioctl_open P E s num mode = requester P E s FDPASS_OPEN_CTL num mode
      (fun fd => Event.sioctl_sun_fdopen fd mode) (fun fd => E.sioctl_sun_fdopen fd mode) := rfl

theorem kept_refl (s : State) : kept s s := ⟨rfl, rfl, rfl, [], by simp⟩

theorem kept_trans {s t u : State} (h1 : kept s t) (h2 : kept t u) : kept s u := by
  obtain ⟨a1, a2, a3, p1, a4⟩ := h1
  obtain ⟨b1, b2, b3, p2, b4⟩ := h2
  exact ⟨b1.trans a1, b2.trans a2, b3.trans a3, p1 ++ p2, by rw [b4, a4, List.append_assoc]⟩

theorem kept_emit (s : State) (e : Event) : kept s (s.emit e) := ⟨rfl, rfl, rfl, [e], rfl⟩

theorem closedIn_of_kept {s t u : State} {f : fdpass} (h1 : kept s t) (h2 : closedIn t u f) :
    closedIn s u f := by
  obtain ⟨-, a2, a3, p1, a4⟩ := h1
  obtain ⟨b1, b2, b3, p2, b4⟩ := h2
  exact ⟨b1, by rw [b2, a3], by rw [b3, a2], p1 ++ p2, by rw [b4, a4]; simp⟩

theorem closedIn_close_ex (s s1 : State) (f : fdpass)
    (hc : s1.chans = s.chans) (hf : s1.files = s.files) (ht : ∃ pre, s1.trace = s.trace ++ pre) :
    closedIn s (fdpass_close s1 f) f := by
  obtain ⟨pre, ht⟩ := ht
  exact closedIn_close s s1 f pre hc hf ht

/-- When `fdpass_recv` returns 0 it has closed the channel. -/
theorem fdpass_recv_none (P : Platform) (s : State) (f : fdpass) (r1 r2 : recvmsg_result)
    (h : (fdpass_recv P s f r1 r2).2 = none) : closedIn s (fdpass_recv P s f r1 r2).1 f := by
  unfold fdpass_recv at h ⊢
  simp only at h ⊢
  split_ifs at h ⊢
  all_goals
    refine closedIn_close_ex s _ f rfl rfl ?_
    simp only [logx_trace, sys_recvmsg, logx, State.emit, List.append_assoc]
    exact ⟨_, rfl⟩

/-- The function `fdpass_recv` either leaves registry and channels as they are
or closes the channel. -/
theorem fdpass_recv_frame (P : Platform) (s : State) (f : fdpass) (r1 r2 : recvmsg_result) :
    kept s (fdpass_recv P s f r1 r2).1 ∨ closedIn s (fdpass_recv P s f r1 r2).1 f := by
  cases h : (fdpass_recv P s f r1 r2).2 with
  | none => exact Or.inr (fdpass_recv_none P s f r1 r2 h)
  | some out =>
    obtain ⟨a, b, c, pre, d, -⟩ :=
      fdpass_recv_some P s _ f r1 r2 out (Prod.ext rfl h)
    exact Or.inl ⟨a, b, c, pre, d⟩

/-- The function `fdpass_send` either leaves registry and channels as they are
or closes the channel. -/
theorem fdpass_send_frame (P : Platform) (s : State) (f : fdpass) (cmd num mode fd n : Int) :
    kept s (fdpass_send P s f cmd num mode fd n).1 ∨
    closedIn s (fdpass_send P s f cmd num mode fd n).1 f := by
  by_cases hn : n = sizeof_fdpass_msg
  · obtain ⟨-, a, b, c, -⟩ := fdpass_send_ok P s f cmd num mode fd n hn
    refine Or.inl ⟨a, b, c, ?_⟩
    unfold fdpass_send
    simp only
    split_ifs
    all_goals
      simp only [fdpass_close_trace, logx_trace, emit_trace, sys_close, List.append_assoc]
      exact ⟨_, rfl⟩
  · exact Or.inr (fdpass_send_fail P s f cmd num mode fd n hn).2

theorem kept_logx (s : State) (l : Nat) (m : String) : kept s (logx s l m) :=
  ⟨rfl, rfl, rfl, _, rfl⟩

theorem kept_opened (s : State) (e : Event) (fd : Int) : kept s (opened s e fd) :=
  ⟨rfl, rfl, rfl, _, rfl⟩

theorem closedIn_close_kept (s s1 : State) (f : fdpass) (h : kept s s1) :
    closedIn s (fdpass_close s1 f) f :=
  closedIn_close_ex s s1 f h.2.1 h.2.2.1 h.2.2.2

/-- The function `fdpass_waitret`, called while a channel is registered,
returns; it either returns 1 and leaves registry and channels as they are, or
returns 0 and has closed a channel. -/
theorem fdpass_waitret_frame (P : Platform) (E : Env) (s : State) (f p : fdpass)
    (hp : s.fdpass_peer = some p) :
    ∃ t r, fdpass_waitret P E s f = some (t, r) ∧
      ((r ≠ none ∧ kept s t) ∨ (r = none ∧ ∃ g, closedIn s t g)) := by
  unfold fdpass_waitret
  rw [hp]
  simp only
  cases hr : fdpass_recv P s p E.recv1 E.recv2 with
  | mk s1 o =>
    have hs1 : s1 = (fdpass_recv P s p E.recv1 E.recv2).1 := by rw [hr]
    cases o with
    | none =>
      refine ⟨s1, none, rfl, Or.inr ⟨rfl, p, ?_⟩⟩
      rw [hs1]
      exact fdpass_recv_none P s p _ _ (by rw [hr])
    | some out =>
      obtain ⟨a, b, c, pre, d, -⟩ := fdpass_recv_some P s s1 p _ _ out hr
      have hk : kept s s1 := ⟨a, b, c, pre, d⟩
      by_cases hcmd : out.cmd = FDPASS_RETURN
      · exact ⟨s1, some out.fd, by simp [hcmd], Or.inl ⟨by simp, hk⟩⟩
      · exact ⟨fdpass_close (logx s1 1 "%s: expected RETURN message") f, none, by simp [hcmd],
          Or.inr ⟨rfl, f, closedIn_close_kept s _ f (kept_trans hk (kept_logx _ _ _))⟩⟩

/-- A requester operation returns; it either leaves registry and channels as
they are or closes a channel. -/
theorem requester_frame (P : Platform) (E : Env) (s : State) (cmd num : Int) (mode : Nat)
    (ev : Int → Event) (res : Int → Option Nat) :
    ∃ t r, requester P E s cmd num mode ev res = some (t, r) ∧
      (kept s t ∨ ∃ g, closedIn s t g) := by
  unfold requester
  cases hp : s.fdpass_peer with
  | none => exact ⟨s, none, rfl, Or.inl (kept_refl s)⟩
  | some p =>
    simp only
    by_cases hn : E.sendmsg = sizeof_fdpass_msg
    · rw [fdpass_send_request P s p _ _ _ _ hn]
      have hp2 : (s.emit (Event.sendmsg p.fd
          ⟨toUInt cmd, toUInt num, toUInt (toInt mode)⟩ [])).fdpass_peer = some p := hp
      obtain ⟨t, r, ht, hfr⟩ := fdpass_waitret_frame P E _ p p hp2
      simp only [hp2, ht]
      rcases hfr with ⟨hr, hk⟩ | ⟨hr, g, hcl⟩
      · have hk2 : kept s t := kept_trans (kept_emit _ _) hk
        cases r with
        | none => exact absurd rfl hr
        | some fd =>
          by_cases hfd : fd < 0
          · exact ⟨t, none, by simp [hfd], Or.inl hk2⟩
          · exact ⟨t.emit (ev fd), res fd, by simp [hfd],
              Or.inl (kept_trans hk2 (kept_emit _ _))⟩
      · subst hr
        exact ⟨t, none, rfl, Or.inr ⟨g, closedIn_of_kept (kept_emit _ _) hcl⟩⟩
    · obtain ⟨h0, hcl⟩ := fdpass_send_fail P s p cmd num (toInt mode) (-1) E.sendmsg hn
      rw [show fdpass_send P s p cmd num (toInt mode) (-1) E.sendmsg
        = ((fdpass_send P s p cmd num (toInt mode) (-1) E.sendmsg).1, 0) from Prod.ext rfl h0]
      exact ⟨_, none, rfl, Or.inr ⟨p, hcl⟩⟩

/-- The callback `fdpass_in_helper` either leaves registry and channels as
they are or closes the channel. -/
theorem fdpass_in_helper_frame (P : Platform) (E : Env) (s : State) (f : fdpass) :
    kept s (fdpass_in_helper P E s f) ∨ closedIn s (fdpass_in_helper P E s f) f := by
  unfold fdpass_in_helper
  cases hr : fdpass_recv P s f E.recv1 E.recv2 with
  | mk s1 o =>
    have hs1 : s1 = (fdpass_recv P s f E.recv1 E.recv2).1 := by rw [hr]
    cases o with
    | none =>
      right
      show closedIn s s1 f
      rw [hs1]
      exact fdpass_recv_none P s f _ _ (by rw [hr])
    | some out =>
      obtain ⟨a, b, c, pre, d, -⟩ := fdpass_recv_some P s s1 f _ _ out hr
      have hk : kept s s1 := ⟨a, b, c, pre, d⟩
      have hclose : ∀ (e : Event) (m : String),
          closedIn s (fdpass_close (logx (s1.emit e) 1 m) f) f := fun e m =>
        closedIn_close_kept s _ f (kept_trans hk (kept_trans (kept_emit _ _) (kept_logx _ _ _)))
      have hsend : ∀ (e1 e2 : Event) (fd : Int),
          kept s (fdpass_send P (opened (s1.emit e1) e2 fd) f FDPASS_RETURN 0 0 fd E.sendmsg).1 ∨
          closedIn s
            (fdpass_send P (opened (s1.emit e1) e2 fd) f FDPASS_RETURN 0 0 fd E.sendmsg).1 f := by
        intro e1 e2 fd
        have hk2 : kept s (opened (s1.emit e1) e2 fd) :=
          kept_trans hk (kept_trans (kept_emit _ _) (kept_opened _ _ _))
        rcases fdpass_send_frame P (opened (s1.emit e1) e2 fd) f FDPASS_RETURN 0 0 fd E.sendmsg
          with h | h
        · exact Or.inl (kept_trans hk2 h)
        · exact Or.inr (closedIn_of_kept hk2 h)
      simp only
      split
      · split
        · exact Or.inr (hclose _ _)
        · split
          · exact Or.inr (hclose _ _)
          · exact hsend _ _ _
      · split
        · split
          · exact Or.inr (hclose _ _)
          · split
            · exact Or.inr (hclose _ _)
            · exact hsend _ _ _
        · split
          · split
            · exact Or.inr (hclose _ _)
            · split
              · exact Or.inr (hclose _ _)
              · exact hsend _ _ _
          · exact Or.inr (closedIn_close_kept s _ f hk)

/-- One operation returns; unless it is a successful `fdpass_new`, it either
leaves registry and channels as they are or closes a channel. -/
theorem step_frame (P : Platform) (s : State) (op : Op) :
    ∃ t, step P s op = some t ∧
      (kept s t ∨ (∃ g, closedIn s t g) ∨
        (op.installs = true ∧ ∃ c, t.fdpass_peer = some c ∧ c ∈ t.chans)) := by
  cases op with
  | sio_open E num mode =>
    obtain ⟨t, r, h, hf⟩ := requester_frame P E s FDPASS_OPEN_SND num mode
      (fun fd => Event.sio_sun_fdopen fd mode) (fun fd => E.sio_sun_fdopen fd mode)
    refine ⟨t, ?_, hf.imp id Or.inl⟩
    simp only [step, fdpass_sio_open_eq, h, Option.map_some']
  | mio_open E num mode =>
    obtain ⟨t, r, h, hf⟩ := requester_frame P E s FDPASS_OPEN_MIDI num mode
      (fun fd => Event.mio_rmidi_fdopen fd mode) (fun fd => E.mio_rmidi_fdopen fd mode)
    refine ⟨t, ?_, hf.imp id Or.inl⟩
    simp only [step, fdpass_mio_open_eq, h, Option.map_some']
  | sioctl_open E num mode =>
    obtain ⟨t, r, h, hf⟩ := requester_frame P E s FDPASS_OPEN_CTL num mode
      (fun fd => Event.sioctl_sun_fdopen fd mode) (fun fd => E.sioctl_sun_fdopen fd mode)
    refine ⟨t, ?_, hf.imp id Or.inl⟩
    simp only [step, fdpass_sioctl_open_eq, h, Option.map_some']
  | new sock ops addr file =>
    cases file with
    | none =>
      refine ⟨_, rfl, Or.inl ⟨rfl, rfl, rfl, ?_⟩⟩
      simp only [fdpass_new, sys_close, emit_trace, State.emit, List.append_assoc]
      exact ⟨_, rfl⟩
    | some fl =>
      exact ⟨_, rfl, Or.inr (Or.inr ⟨rfl, ⟨addr, fl, sock⟩, rfl, List.mem_cons_self _ _⟩)⟩
  | in_worker f =>
    exact ⟨_, rfl, Or.inr (Or.inl ⟨f, closedIn_close_kept s _ f (kept_logx _ _ _)⟩)⟩
  | in_helper E f =>
    refine ⟨_, rfl, ?_⟩
    rcases fdpass_in_helper_frame P E s f with h | h
    · exact Or.inl h
    · exact Or.inr (Or.inl ⟨f, h⟩)
  | hup f =>
    exact ⟨_, rfl, Or.inr (Or.inl ⟨f, closedIn_close_kept s _ f (kept_logx _ _ _)⟩)⟩

/-- Every sequence of operations runs to the end. -/
theorem run_total (P : Platform) (ops : List Op) : ∀ s, ∃ t, run P s ops = some t := by
  induction ops with
  | nil => exact fun s => ⟨s, rfl⟩
  | cons op ops ih =>
    intro s
    obtain ⟨t, ht, -⟩ := step_frame P s op
    obtain ⟨u, hu⟩ := ih t
    exact ⟨u, by simp only [run, ht, Option.some_bind, hu]⟩

/-- While no `fdpass_new` succeeds an empty registry stays empty. -/
theorem run_no_peer (P : Platform) (ops : List Op) :
    ∀ s, s.fdpass_peer = none → (∀ op ∈ ops, op.installs = false) →
      ∃ t, run P s ops = some t ∧ t.fdpass_peer = none := by
  induction ops with
  | nil => exact fun s hs _ => ⟨s, rfl, hs⟩
  | cons op ops ih =>
    intro s hs hops
    obtain ⟨t, ht, hf⟩ := step_frame P s op
    have htp : t.fdpass_peer = none := by
      rcases hf with h | ⟨g, h⟩ | ⟨h, -⟩
      · rw [h.1, hs]
      · exact h.1
      · rw [hops op (List.mem_cons_self _ _)] at h
        exact absurd h (by decide)
    obtain ⟨u, hu, hup⟩ := ih t htp (fun o ho => hops o (List.mem_cons_of_mem _ ho))
    exact ⟨u, by simp only [run, ht, Option.some_bind, hu], hup⟩

/-- With an empty registry a requester operation returns NULL at once. -/
theorem requester_no_peer (P : Platform) (E : Env) (s : State) (num : Int) (mode : Nat)
    (h : s.fdpass_peer = none) :
    fdpass_sio_open P E s num mode = some (s, none) ∧
    fdpass_mio_open P E s num mode = some (s, none) ∧
    fdpass_sioctl_open P E s num mode = some (s, none) := by
  refine ⟨?_, ?_, ?_⟩
  · unfold fdpass_sio_open; rw [h]
  · unfold fdpass_mio_open; rw [h]
  · unfold fdpass_sioctl_open; rw [h]

theorem step_registryLive (P : Platform) (s t : State) (op : Op) (hs : registryLive s)
    (h : step P s op = some t) : registryLive t := by
  obtain ⟨t2, ht, hf⟩ := step_frame P s op
  rw [h] at ht
  cases ht
  intro c hc
  rcases hf with hk | ⟨g, hcl⟩ | ⟨-, d, hd, hmem⟩
  · rw [hk.2.1]
    exact hs c (by rw [← hk.1]; exact hc)
  · rw [hcl.1] at hc
    cases hc
  · rw [hd] at hc
    cases hc
    exact hmem

theorem run_registryLive (P : Platform) (ops : List Op) :
    ∀ s t, registryLive s → run P s ops = some t → registryLive t := by
  induction ops with
  | nil =>
    intro s t hs h
    cases h
    exact hs
  | cons op ops ih =>
    intro s t hs h
    obtain ⟨u, hu, -⟩ := step_frame P s op
    simp only [run, hu, Option.some_bind] at h
    exact ih u t (step_registryLive P s u op hs hu) h

/-- C9.  After a channel is torn down by any path the peer registry is empty,
and after any further operations none of which is a successful `fdpass_new`
it is still empty and each of `fdpass_sio_open`, `fdpass_mio_open` and
`fdpass_sioctl_open` returns NULL leaving the state, the trace included, as it
was: nothing is sent or received. -/
theorem no_peer_after_teardown (P : Platform) (s t : State) (f : fdpass) (ops : List Op)
    (hdown : tornDown P s f t) (hops : ∀ op ∈ ops, op.installs = false) :
    t.fdpass_peer = none ∧
    ∃ u, run P t ops = some u ∧ u.fdpass_peer = none ∧
      ∀ (E : Env) (num : Int) (mode : Nat),
        fdpass_sio_open P E u num mode = some (u, none) ∧
        fdpass_mio_open P E u num mode = some (u, none) ∧
        fdpass_sioctl_open P E u num mode = some (u, none) := by
  have ht : t.fdpass_peer = none := by
    rcases hdown with h | h | h | ⟨r1, r2, h⟩ | ⟨cmd, num, mode, fd, n, h⟩ | ⟨E, h⟩ | ⟨E, -, h⟩
    · rw [h]; rfl
    · rw [h]; rfl
    · rw [h]; rfl
    · have h1 := fdpass_recv_none P s f r1 r2 (by rw [h])
      rw [h] at h1
      exact h1.1
    · have hn : n ≠ sizeof_fdpass_msg := by
        intro hn
        have h1 : ((t, 0) : State × Int).2 = 1 := by
          rw [← h]
          exact (fdpass_send_ok P s f cmd num mode fd n hn).1
        exact absurd (show (0 : Int) = 1 from h1) (by decide)
      have h1 := (fdpass_send_fail P s f cmd num mode fd n hn).2
      rw [h] at h1
      exact h1.1
    · cases hp : s.fdpass_peer with
      | none =>
        unfold fdpass_waitret at h
        rw [hp] at h
        cases h
      | some p =>
        obtain ⟨t2, r, h2, hfr⟩ := fdpass_waitret_frame P E s f p hp
        rw [h] at h2
        simp only [Option.some.injEq, Prod.mk.injEq] at h2
        obtain ⟨e1, e2⟩ := h2
        subst e1
        rcases hfr with ⟨hr, -⟩ | ⟨-, g, hcl⟩
        · exact absurd e2.symm hr
        · exact hcl.1
    · exact h.1
  refine ⟨ht, ?_⟩
  obtain ⟨u, hu, hup⟩ := run_no_peer P ops t ht hops
  exact ⟨u, hu, hup, fun E num mode => requester_no_peer P E u num mode hup⟩

/-- C9 at a concrete input: the worker's channel is torn down by the hang-up
callback; then an `fdpass_new` fails and the helper callback runs on another
channel. -/
theorem no_peer_after_teardown_witness :
    (fdpass_hup st0w chan0).fdpass_peer = none ∧
    ∃ u, run openbsd (fdpass_hup st0w chan0)
        [Op.new 4 fileops.worker_fileops 2 none,
         Op.in_helper (envWith (record 0 0 1)) ⟨5, 6, 8⟩] = some u ∧
      u.fdpass_peer = none ∧
      ∀ (E : Env) (num : Int) (mode : Nat),
        fdpass_sio_open openbsd E u num mode = some (u, none) ∧
        fdpass_mio_open openbsd E u num mode = some (u, none) ∧
        fdpass_sioctl_open openbsd E u num mode = some (u, none) :=
  no_peer_after_teardown openbsd st0w (fdpass_hup st0w chan0) chan0
    [Op.new 4 fileops.worker_fileops 2 none, Op.in_helper (envWith (record 0 0 1)) ⟨5, 6, 8⟩]
    (Or.inr (Or.inl rfl)) (by decide)

/-- C10, as the code has it.  While channel `c` is the registered peer, one
operation either leaves the registry referencing `c`, or closes a channel
(which may be `c` or any other channel) and leaves the registry empty, or is a
successful `fdpass_new`, which replaces the entry.  Closing any channel `g`
empties the registry.  In every state reached from the initial one the
registry references an allocated channel structure, never one that has been
closed. -/
theorem registry_tracking (P : Platform) (s t : State) (c : fdpass) (op : Op)
    (hc : s.fdpass_peer = some c) (hstep : step P s op = some t) :
    (t.fdpass_peer = some c ∨
      (t.fdpass_peer = none ∧ ∃ g, closedIn s t g) ∨
      (op.installs = true ∧ ∃ d, t.fdpass_peer = some d ∧ d ∈ t.chans)) ∧
    (∀ g, (fdpass_close s g).fdpass_peer = none) ∧
    (∀ (ops : List Op) (u : State), run P State.init ops = some u → registryLive u) := by
  refine ⟨?_, fun _ => rfl, ?_⟩
  · obtain ⟨t2, ht, hf⟩ := step_frame P s op
    rw [hstep] at ht
    cases ht
    rcases hf with hk | ⟨g, hcl⟩ | h
    · exact Or.inl (by rw [hk.1]; exact hc)
    · exact Or.inr (Or.inl ⟨hcl.1, g, hcl⟩)
    · exact Or.inr (Or.inr h)
  · intro ops u hu
    refine run_registryLive P ops State.init u ?_ hu
    intro d hd
    cases hd

/-- C10 at a concrete input: the hang-up callback of the replaced channel
`chan0` runs while `chanB` is registered. -/
theorem registry_tracking_witness :
    ((fdpass_hup stAB chan0).fdpass_peer = some chanB ∨
      ((fdpass_hup stAB chan0).fdpass_peer = none ∧
        ∃ g, closedIn stAB (fdpass_hup stAB chan0) g) ∨
      ((Op.hup chan0).installs = true ∧
        ∃ d, (fdpass_hup stAB chan0).fdpass_peer = some d ∧
          d ∈ (fdpass_hup stAB chan0).chans)) ∧
    (∀ g, (fdpass_close stAB g).fdpass_peer = none) ∧
    (∀ (ops : List Op) (u : State), run openbsd State.init ops = some u → registryLive u) :=
  registry_tracking openbsd stAB (fdpass_hup stAB chan0) chanB (Op.hup chan0) rfl rfl

/-- C10 as stated fails: `chanB` was installed by a successful `fdpass_new`
that replaced `chan0`; closing the older channel `chan0` empties the registry
although `chanB` has not been closed and no `fdpass_new` ran since. -/
theorem registry_tracking_counterexample :
    (fdpass_new st0 4 fileops.helper_fileops 2 (some 8)).2 = some chanB ∧
    stAB.fdpass_peer = some chanB ∧
    chan0 ≠ chanB ∧
    chanB ∈ (fdpass_close stAB chan0).chans ∧
    closes chanB.fd (fdpass_close stAB chan0).trace = 0 ∧
    (fdpass_close stAB chan0).fdpass_peer ≠ some chanB := by
  decide

end Fdpass
